import Mathlib

/-!
Verification of the `trace_tcp_rcv` packet inspector from
`src/runtime/unfair_runtime.c` (variant 1) and
`src/unfair/runtime/unfair_runtime.c` (variant 2).

The two C variants are shallowly embedded as pure Lean functions over a
byte-level frame model.  Machine integers are modelled as `Nat` with explicit
`% 2^32` where the C performs wrapping 32-bit arithmetic.  The kernel socket
buffer (`struct sk_buff`) is modelled as a byte list plus the header offsets
and metadata fields the code reads; the nullable `skb` pointer becomes
`Option SkBuff`.  A call to `perf_submit` is modelled as returning
`some record`; every early `return 0` before the submit becomes `none`.

Memory loads honour host byte order: each multi-byte field access
(`ip->tot_len`, `tcp->source`, `tcp->seq`, ...) is a host-order
interpretation of the bytes at the field's address, parametrised by a
little-endian flag, and `ntohs`/`htons` swap on little-endian hosts only.
The `#if __BYTE_ORDER == __LITTLE_ENDIAN` blocks in the C are modelled by
the same flag.

Pointer arithmetic in the C is translated at the byte level:
`&ip->tos - 1` is offset 0 of the IP header (the version/IHL byte), and
`&tcp->ack_seq + 4` advances a `__be32` pointer by four elements, i.e.
16 bytes past offset 8, so the byte actually read sits at offset 24 of the
TCP header.
-/

namespace Unfair

/-- `ETH_P_IP` from the kernel headers (0x0800). -/
def ETH_P_IP : Nat := 2048

/-- `IPPROTO_TCP` from the kernel headers. -/
def IPPROTO_TCP : Nat := 6

/-- `AF_INET` from the kernel headers. -/
def AF_INET : Nat := 2

/-- Byte swap of a 16-bit value. -/
def bswap16 (x : Nat) : Nat := x % 256 * 256 + x / 256 % 256

/-- `htons`: identity on big-endian hosts, 16-bit byte swap on little-endian
hosts.  The `le` flag is true on little-endian hosts. -/
def htons (le : Bool) (x : Nat) : Nat := if le then bswap16 x else x

/-- `ntohs`: same function as `htons`. -/
def ntohs (le : Bool) (x : Nat) : Nat := if le then bswap16 x else x

/-- Model of the parts of `struct sk_buff` that `trace_tcp_rcv` reads:
the captured bytes at `skb->head`, the `network_header` and
`transport_header` offsets, the raw `skb->protocol` field (a `__be16`
stored in network order, compared against `htons(ETH_P_IP)`), and the
raw `skb->tstamp` in nanoseconds. -/
structure SkBuff where
  data : List Nat
  network_header : Nat
  transport_header : Nat
  protocol : Nat
  tstamp : Nat
  deriving DecidableEq

/-- Model of the fields of `struct sock` / `struct tcp_sock` that the code
reads: the address family of `sk->__sk_common.skc_family`, `ts->srtt_us`,
`ts->rx_opt.rcv_tsval` and `ts->rx_opt.rcv_tsecr`. -/
structure TcpSock where
  family : Nat
  srtt_us : Nat
  rcv_tsval : Nat
  rcv_tsecr : Nat
  deriving DecidableEq

/-- The byte of the frame buffer at absolute offset `i` (from `skb->head`).
Memory holds bytes, hence the value is reduced mod 256. -/
def byteAt (skb : SkBuff) (i : Nat) : Nat := skb.data.getD i 0 % 256

/-- Host-order interpretation of two consecutive bytes (`b0` at the lower
address). -/
def load16 (le : Bool) (b0 b1 : Nat) : Nat :=
  if le then b0 + 256 * b1 else 256 * b0 + b1

/-- Host-order interpretation of four consecutive bytes (`b0` at the lowest
address). -/
def load32 (le : Bool) (b0 b1 b2 b3 : Nat) : Nat :=
  if le then b0 + 256 * b1 + 65536 * b2 + 16777216 * b3
  else 16777216 * b0 + 65536 * b1 + 256 * b2 + b3

/-- A 16-bit load from the frame at offset `i`. -/
def read16 (le : Bool) (skb : SkBuff) (i : Nat) : Nat :=
  load16 le (byteAt skb i) (byteAt skb (i + 1))

/-- A 32-bit load from the frame at offset `i`. -/
def read32 (le : Bool) (skb : SkBuff) (i : Nat) : Nat :=
  load32 le (byteAt skb i) (byteAt skb (i + 1)) (byteAt skb (i + 2)) (byteAt skb (i + 3))

/-- Wrapping unsigned 32-bit subtraction, the semantics of `a - b` on `u32`
operands in C. -/
def sub32 (a b : Nat) : Nat :=
  (a % 4294967296 + 4294967296 - b % 4294967296) % 4294967296

/-- `struct pkt_t` of `src/runtime/unfair_runtime.c` (variant 1). -/
structure pkt_t where
  saddr : Nat
  daddr : Nat
  sport : Nat
  dport : Nat
  seq : Nat
  srtt_us : Nat
  tsval : Nat
  tsecr : Nat
  total_b : Nat
  ihl_b : Nat
  thl_b : Nat
  payload_b : Nat
  iv : Nat
  time_us : Nat
  deriving DecidableEq

/-- `struct pkt_t` of `src/unfair/runtime/unfair_runtime.c` (variant 2). -/
structure pkt2_t where
  saddr : Nat
  daddr : Nat
  sport : Nat
  dport : Nat
  seq : Nat
  srtt_us : Nat
  tsval : Nat
  tsecr : Nat
  total_bytes : Nat
  ihl_bytes : Nat
  thl_bytes : Nat
  payload_bytes : Nat
  padding : Nat
  time_us : Nat
  deriving DecidableEq

/-- IHL extraction from the version/IHL byte `f` (read at `&ip->tos - 1`),
as written in both C variants:
little-endian branch `(f & 0xf0) >> 4`, big-endian branch `f & 0x0f`. -/
def ihlNib (le : Bool) (f : Nat) : Nat :=
  if le then (f &&& 240) >>> 4 else f &&& 15

/-- The `iv` extraction of variant 1 (the other nibble of the same byte):
little-endian branch `f & 0x0f`, big-endian branch `(f & 0xf0) >> 4`. -/
def ivNib (le : Bool) (f : Nat) : Nat :=
  if le then f &&& 15 else (f &&& 240) >>> 4

/-- TCP header-length extraction from the byte read at `&tcp->ack_seq + 4`,
as written in both C variants:
little-endian branch `(thl & 0x0f) >> 4`, big-endian branch
`(thl & 0xf0) >> 4`. -/
def thlNib (le : Bool) (b : Nat) : Nat :=
  if le then (b &&& 15) >>> 4 else (b &&& 240) >>> 4

/-- `ntohs(ip->tot_len)`: `tot_len` is the 16-bit field at offset 2 of the
IP header. -/
def totalOf (le : Bool) (skb : SkBuff) : Nat :=
  ntohs le (read16 le skb (skb.network_header + 2))

/-- `pkt.ihl_b`: decoded IHL nibble times 4.  The version/IHL byte is at
offset 0 of the IP header (`&ip->tos - 1`). -/
def ihlB (le : Bool) (skb : SkBuff) : Nat :=
  ihlNib le (byteAt skb skb.network_header) * 4

/-- `pkt.thl_b`: decoded TCP header-length nibble times 4.  The address
`&tcp->ack_seq + 4` advances a 4-byte pointer by 4 elements, so the byte
read is at offset 8 + 16 = 24 of the TCP header. -/
def thlB (le : Bool) (skb : SkBuff) : Nat :=
  thlNib le (byteAt skb (skb.transport_header + 24)) * 4

/-- The record built by variant 1 once all filter checks have passed,
field by field in the order the C assigns them.  `pkt.seq = tcp->seq` is a
raw host-order load with no `ntohl`; ports go through `ntohs`;
`pkt.srtt_us = ts->srtt_us >> 3`; `pkt.time_us = (u64)tstamp / 1000000`. -/
def mkPkt_v1 (le : Bool) (sk : TcpSock) (skb : SkBuff) : pkt_t :=
  { saddr := read32 le skb (skb.network_header + 12)
    daddr := read32 le skb (skb.network_header + 16)
    sport := ntohs le (read16 le skb skb.transport_header)
    dport := ntohs le (read16 le skb (skb.transport_header + 2))
    seq := read32 le skb (skb.transport_header + 4)
    srtt_us := sk.srtt_us >>> 3
    tsval := sk.rcv_tsval
    tsecr := sk.rcv_tsecr
    total_b := totalOf le skb
    ihl_b := ihlB le skb
    thl_b := thlB le skb
    payload_b := sub32 (sub32 (totalOf le skb) (ihlB le skb)) (thlB le skb)
    iv := ivNib le (byteAt skb skb.network_header)
    time_us := skb.tstamp / 1000000 }

/-- The record built by variant 2 once all filter checks have passed.
Identical computations to variant 1 except there is no `iv` field and the
zero-initialised `padding` field stays 0. -/
def mkPkt_v2 (le : Bool) (sk : TcpSock) (skb : SkBuff) : pkt2_t :=
  { saddr := read32 le skb (skb.network_header + 12)
    daddr := read32 le skb (skb.network_header + 16)
    sport := ntohs le (read16 le skb skb.transport_header)
    dport := ntohs le (read16 le skb (skb.transport_header + 2))
    seq := read32 le skb (skb.transport_header + 4)
    srtt_us := sk.srtt_us >>> 3
    tsval := sk.rcv_tsval
    tsecr := sk.rcv_tsecr
    total_bytes := totalOf le skb
    ihl_bytes := ihlB le skb
    thl_bytes := thlB le skb
    payload_bytes := sub32 (sub32 (totalOf le skb) (ihlB le skb)) (thlB le skb)
    padding := 0
    time_us := skb.tstamp / 1000000 }

/-- `trace_tcp_rcv` of `src/runtime/unfair_runtime.c`: rejects when the
socket family is not `AF_INET` or the skb is null, when `skb->protocol`
differs from `htons(ETH_P_IP)`, or when the IP protocol byte (offset 9 of
the IP header) is not `IPPROTO_TCP`; otherwise submits one record. -/
def trace_tcp_rcv_v1 (le : Bool) (sk : TcpSock) (skb? : Option SkBuff) : Option pkt_t :=
  match skb? with
  | none => none
  | some skb =>
    if sk.family ≠ AF_INET then none
    else if skb.protocol ≠ htons le ETH_P_IP then none
    else if byteAt skb (skb.network_header + 9) ≠ IPPROTO_TCP then none
    else some (mkPkt_v1 le sk skb)

/-- `trace_tcp_rcv` of `src/unfair/runtime/unfair_runtime.c`: rejects when
the skb is null, when `skb->protocol` differs from `htons(ETH_P_IP)`, or
when the IP protocol byte is not `IPPROTO_TCP`; otherwise submits one
record. -/
def trace_tcp_rcv_v2 (le : Bool) (sk : TcpSock) (skb? : Option SkBuff) : Option pkt2_t :=
  match skb? with
  | none => none
  | some skb =>
    if skb.protocol ≠ htons le ETH_P_IP then none
    else if byteAt skb (skb.network_header + 9) ≠ IPPROTO_TCP then none
    else some (mkPkt_v2 le sk skb)

/-! ### Concrete frames used for counterexamples and witnesses -/

/-- A well-formed 20-byte IPv4 header: version 4, IHL nibble 5 (first byte
0x45), total length 1500, TTL 64, protocol TCP (6), source 10.0.0.1,
destination 10.0.0.2. -/
def ipHdrBytes : List Nat :=
  [69, 0, 5, 220, 0, 0, 0, 0, 64, 6, 0, 0, 10, 0, 0, 1, 10, 0, 0, 2]

/-- A 20-byte TCP header: source port 80, destination port 12345, sequence
number bytes 01 02 03 04 (network-order value 16909060), ack bytes
05 06 07 08, data-offset nibble 8 (byte 0x80 at offset 12), ACK flag,
window 65535. -/
def tcpHdrBytes : List Nat :=
  [0, 80, 48, 57, 1, 2, 3, 4, 5, 6, 7, 8, 128, 16, 255, 255, 0, 0, 0, 0]

/-- Twelve NOP option bytes filling the TCP header out to its declared
32 bytes. -/
def tcpOptBytes : List Nat := [1, 1, 1, 1, 1, 1, 1, 1, 1, 1, 1, 1]

/-- A connection state: family `AF_INET`, `srtt_us` 800, timestamp pair
(111, 222). -/
def sockA : TcpSock :=
  { family := 2, srtt_us := 800, rcv_tsval := 111, rcv_tsecr := 222 }

/-- A fully captured, well-formed IPv4/TCP frame: IP header at offset 0,
TCP header at offset 20, `skb->protocol` declared IPv4 for the given host
byte order, capture timestamp 1000000500 ns. -/
def testFrame (le : Bool) : SkBuff :=
  { data := ipHdrBytes ++ tcpHdrBytes ++ tcpOptBytes
    network_header := 0
    transport_header := 20
    protocol := htons le ETH_P_IP
    tstamp := 1000000500 }

/-- Like `testFrame` but with IP total length 10, smaller than any header
combination. -/
def frameSmall (le : Bool) : SkBuff :=
  { data := [69, 0, 0, 10, 0, 0, 0, 0, 64, 6, 0, 0, 10, 0, 0, 1, 10, 0, 0, 2]
      ++ tcpHdrBytes ++ tcpOptBytes
    network_header := 0
    transport_header := 20
    protocol := htons le ETH_P_IP
    tstamp := 1000000500 }

/-- A truncated capture: the TCP header declares data-offset nibble 15
(60 bytes, byte 0xF0 at offset 12 of the TCP header) but the buffer holds
only 40 bytes in total, 20 of them TCP. -/
def frameTrunc (le : Bool) : SkBuff :=
  { data := ipHdrBytes
      ++ [0, 80, 48, 57, 1, 2, 3, 4, 5, 6, 7, 8, 240, 16, 255, 255, 0, 0, 0, 0]
    network_header := 0
    transport_header := 20
    protocol := htons le ETH_P_IP
    tstamp := 1000000500 }

/-- A frame whose first IP byte is 0x44: IHL nibble 4, i.e. a declared IP
header length of 16 bytes, outside the valid range [20, 60]. -/
def frameBadIhl (le : Bool) : SkBuff :=
  { data := [68, 0, 5, 220, 0, 0, 0, 0, 64, 6, 0, 0, 10, 0, 0, 1, 10, 0, 0, 2]
      ++ tcpHdrBytes ++ tcpOptBytes
    network_header := 0
    transport_header := 20
    protocol := htons le ETH_P_IP
    tstamp := 1000000500 }

/-! ### Helper lemmas -/

/-- A byte read from the frame buffer is below 256. -/
theorem byteAt_lt (skb : SkBuff) (i : Nat) : byteAt skb i < 256 :=
  Nat.mod_lt _ (by norm_num)

/-- On either host byte order, `ntohs` applied to a host-order load of two
bytes yields the big-endian (network-order) value of those bytes. -/
theorem ntohs_load16 (le : Bool) (b0 b1 : Nat) (h0 : b0 < 256) (h1 : b1 < 256) :
    ntohs le (load16 le b0 b1) = 256 * b0 + b1 := by
  cases le <;> simp [ntohs, load16, bswap16] <;> omega

/-- The decoded total length is a 16-bit quantity. -/
theorem totalOf_lt (le : Bool) (skb : SkBuff) : totalOf le skb < 65536 := by
  have h0 := byteAt_lt skb (skb.network_header + 2)
  have h1 := byteAt_lt skb (skb.network_header + 2 + 1)
  unfold totalOf read16
  cases le <;> simp [ntohs, load16, bswap16] <;> omega

/-- Two chained wrapping 32-bit subtractions agree with exact subtraction
when no underflow occurs. -/
theorem sub32_sub32 (t i h : Nat) (ht : t < 4294967296) (hle : i + h ≤ t) :
    sub32 (sub32 t i) h = t - i - h := by
  unfold sub32
  omega

/-- If variant 1 emits a record, the record is `mkPkt_v1`. -/
theorem trace_v1_eq (le : Bool) (sk : TcpSock) (skb : SkBuff) (p : pkt_t)
    (h : trace_tcp_rcv_v1 le sk (some skb) = some p) :
    p = mkPkt_v1 le sk skb := by
  simp only [trace_tcp_rcv_v1] at h
  split_ifs at h
  exact (Option.some.inj h).symm

/-- If variant 2 emits a record, the record is `mkPkt_v2`. -/
theorem trace_v2_eq (le : Bool) (sk : TcpSock) (skb : SkBuff) (p : pkt2_t)
    (h : trace_tcp_rcv_v2 le sk (some skb) = some p) :
    p = mkPkt_v2 le sk skb := by
  simp only [trace_tcp_rcv_v2] at h
  split_ifs at h
  exact (Option.some.inj h).symm

/-! ### Claim theorems -/

/-- Claim C1 fails on the code.  `testFrame` carries TCP data-offset
nibble 8 (the high nibble of the byte right after the acknowledgment
field, offset 12 of the TCP header, absolute offset 32), so the claim
demands a recorded TCP header length of 32 bytes.  Both variants emit 0:
on little-endian hosts the extraction computes `(b & 0x0f) >> 4`, which is
always 0, and on big-endian hosts the byte actually read is at offset 24
of the TCP header (because `&tcp->ack_seq + 4` advances a 4-byte pointer
by 16 bytes), not the data-offset byte. -/
theorem c1_thl_extraction_bug :
    byteAt (testFrame true) 32 >>> 4 = 8
  ∧ byteAt (testFrame false) 32 >>> 4 = 8
  ∧ (trace_tcp_rcv_v1 true sockA (some (testFrame true))).map pkt_t.thl_b = some 0
  ∧ (trace_tcp_rcv_v2 true sockA (some (testFrame true))).map pkt2_t.thl_bytes = some 0
  ∧ (trace_tcp_rcv_v1 false sockA (some (testFrame false))).map pkt_t.thl_b = some 0
  ∧ (trace_tcp_rcv_v2 false sockA (some (testFrame false))).map pkt2_t.thl_bytes = some 0 := by
  decide

/-- Claim C2 fails on the code on little-endian hosts.  `testFrame` has
IPv4 IHL nibble 5 (low nibble of the first IP header byte 0x45), so the
claim demands a recorded IP header length of 20 bytes; both variants emit
16 on little-endian hosts because the little-endian branch extracts the
high nibble — the IP version, 4 — instead of the IHL. -/
theorem c2_ihl_extraction_bug :
    byteAt (testFrame true) 0 &&& 15 = 5
  ∧ (trace_tcp_rcv_v1 true sockA (some (testFrame true))).map pkt_t.ihl_b = some 16
  ∧ (trace_tcp_rcv_v2 true sockA (some (testFrame true))).map pkt2_t.ihl_bytes = some 16 := by
  decide

/-- Claim C3 fails on the code.  `frameSmall` decodes (on a little-endian
host) to total length 10 and header lengths 16 + 0, so total < sum of
headers, yet a record is emitted and its payload field is the wrapped
32-bit value 2^32 - 6 = 4294967290, neither 0 nor absent. -/
theorem c3_payload_wraps :
    (trace_tcp_rcv_v1 true sockA (some (frameSmall true))).map
        (fun p => (p.total_b, p.ihl_b, p.thl_b, p.payload_b))
      = some (10, 16, 0, 4294967290)
  ∧ (trace_tcp_rcv_v2 true sockA (some (frameSmall true))).map
        (fun p => (p.total_bytes, p.ihl_bytes, p.thl_bytes, p.payload_bytes))
      = some (10, 16, 0, 4294967290) := by
  decide

/-- Claim C4 fails on the code.  `testFrame` has capture timestamp
1000000500 ns; the claim demands 1000000500 / 1000 = 1000000 in the
capture-time field, but both variants divide by 1000000 and record 1000
(milliseconds, despite the field being named `time_us`). -/
theorem c4_time_division_bug :
    (testFrame true).tstamp = 1000000500
  ∧ (testFrame true).tstamp / 1000 = 1000000
  ∧ (trace_tcp_rcv_v1 true sockA (some (testFrame true))).map pkt_t.time_us = some 1000
  ∧ (trace_tcp_rcv_v2 true sockA (some (testFrame true))).map pkt2_t.time_us = some 1000 := by
  decide

/-- Claim C5 fails on the code.  `frameTrunc` captures only 40 bytes while
its TCP header declares data-offset nibble 15 (a 60-byte TCP header
starting at offset 20, so 80 bytes would be needed); neither variant
performs any buffer-length check — the buffer length is never even read —
and a record is emitted on both byte orders. -/
theorem c5_no_bounds_check :
    (frameTrunc true).data.length = 40
  ∧ byteAt (frameTrunc true) 32 >>> 4 = 15
  ∧ (trace_tcp_rcv_v1 true sockA (some (frameTrunc true))).isSome = true
  ∧ (trace_tcp_rcv_v2 true sockA (some (frameTrunc true))).isSome = true
  ∧ (trace_tcp_rcv_v1 false sockA (some (frameTrunc false))).isSome = true
  ∧ (trace_tcp_rcv_v2 false sockA (some (frameTrunc false))).isSome = true := by
  decide

/-- Claim C6 fails on the code.  `frameBadIhl` has IHL nibble 4 (first IP
byte 0x44), a declared IP header length of 16 bytes, outside [20, 60];
both variants still emit a record, carrying IP header length 16 on either
byte order (on little-endian because the version nibble 4 is extracted, on
big-endian because the out-of-range IHL nibble 4 is accepted unchecked). -/
theorem c6_no_range_check :
    byteAt (frameBadIhl true) 0 &&& 15 = 4
  ∧ (trace_tcp_rcv_v1 true sockA (some (frameBadIhl true))).map pkt_t.ihl_b = some 16
  ∧ (trace_tcp_rcv_v2 true sockA (some (frameBadIhl true))).map pkt2_t.ihl_bytes = some 16
  ∧ (trace_tcp_rcv_v1 false sockA (some (frameBadIhl false))).map pkt_t.ihl_b = some 16
  ∧ (trace_tcp_rcv_v2 false sockA (some (frameBadIhl false))).map pkt2_t.ihl_bytes = some 16 := by
  decide

/-- Claim C7 fails on the code for the sequence number: on a little-endian
host, the record's sequence-number field differs from the network-to-host
converted value of the wire bytes (`read32 false` is the network-order,
i.e. host-converted, value; the code stores the raw unswapped load
67305985 instead of 16909060). -/
theorem c7_seq_not_converted :
    (trace_tcp_rcv_v1 true sockA (some (testFrame true))).map pkt_t.seq
      ≠ some (read32 false (testFrame true) ((testFrame true).transport_header + 4))
  ∧ (trace_tcp_rcv_v2 true sockA (some (testFrame true))).map pkt2_t.seq
      ≠ some (read32 false (testFrame true) ((testFrame true).transport_header + 4)) := by
  decide

/-- Claim C7 amended: for every accepted frame, the source and destination
ports in the record are converted from network to host byte order (their
value is the big-endian reading of the wire bytes on either host), but the
sequence number is stored as loaded, without a 32-bit swap, so on
little-endian hosts it stays in network byte order. -/
theorem c7_ports_host_seq_raw (le : Bool) (sk : TcpSock) (skb : SkBuff)
    (p1 : pkt_t) (p2 : pkt2_t)
    (h1 : trace_tcp_rcv_v1 le sk (some skb) = some p1)
    (h2 : trace_tcp_rcv_v2 le sk (some skb) = some p2) :
    (p1.sport = 256 * byteAt skb skb.transport_header
        + byteAt skb (skb.transport_header + 1)
     ∧ p1.dport = 256 * byteAt skb (skb.transport_header + 2)
        + byteAt skb (skb.transport_header + 3)
     ∧ p1.seq = read32 le skb (skb.transport_header + 4))
  ∧ (p2.sport = 256 * byteAt skb skb.transport_header
        + byteAt skb (skb.transport_header + 1)
     ∧ p2.dport = 256 * byteAt skb (skb.transport_header + 2)
        + byteAt skb (skb.transport_header + 3)
     ∧ p2.seq = read32 le skb (skb.transport_header + 4)) := by
  have e1 := trace_v1_eq le sk skb p1 h1
  have e2 := trace_v2_eq le sk skb p2 h2
  subst e1
  subst e2
  refine ⟨⟨?_, ?_, rfl⟩, ?_, ?_, rfl⟩ <;>
    · simp only [mkPkt_v1, mkPkt_v2, read16]
      exact ntohs_load16 le _ _ (byteAt_lt skb _) (byteAt_lt skb _)

/-- Witness for the amended C7 at a concrete accepted frame. -/
theorem c7_ports_witness :
    ((mkPkt_v1 true sockA (testFrame true)).sport
        = 256 * byteAt (testFrame true) (testFrame true).transport_header
          + byteAt (testFrame true) ((testFrame true).transport_header + 1)
     ∧ (mkPkt_v1 true sockA (testFrame true)).dport
        = 256 * byteAt (testFrame true) ((testFrame true).transport_header + 2)
          + byteAt (testFrame true) ((testFrame true).transport_header + 3)
     ∧ (mkPkt_v1 true sockA (testFrame true)).seq
        = read32 true (testFrame true) ((testFrame true).transport_header + 4))
  ∧ ((mkPkt_v2 true sockA (testFrame true)).sport
        = 256 * byteAt (testFrame true) (testFrame true).transport_header
          + byteAt (testFrame true) ((testFrame true).transport_header + 1)
     ∧ (mkPkt_v2 true sockA (testFrame true)).dport
        = 256 * byteAt (testFrame true) ((testFrame true).transport_header + 2)
          + byteAt (testFrame true) ((testFrame true).transport_header + 3)
     ∧ (mkPkt_v2 true sockA (testFrame true)).seq
        = read32 true (testFrame true) ((testFrame true).transport_header + 4)) :=
  c7_ports_host_seq_raw true sockA (testFrame true) _ _ (by decide) (by decide)

/-- Claim C8: for every accepted frame in which the decoded total length is
at least the sum of the decoded IP and TCP header lengths, both variants
record payload length = total length − IP header length − TCP header
length (the wrapping 32-bit subtraction does not underflow). -/
theorem c8_payload_exact (le : Bool) (sk : TcpSock) (skb : SkBuff)
    (p1 : pkt_t) (p2 : pkt2_t)
    (h1 : trace_tcp_rcv_v1 le sk (some skb) = some p1)
    (h2 : trace_tcp_rcv_v2 le sk (some skb) = some p2)
    (hle1 : p1.ihl_b + p1.thl_b ≤ p1.total_b)
    (hle2 : p2.ihl_bytes + p2.thl_bytes ≤ p2.total_bytes) :
    p1.payload_b = p1.total_b - p1.ihl_b - p1.thl_b
  ∧ p2.payload_bytes = p2.total_bytes - p2.ihl_bytes - p2.thl_bytes := by
  have e1 := trace_v1_eq le sk skb p1 h1
  have e2 := trace_v2_eq le sk skb p2 h2
  subst e1
  subst e2
  simp only [mkPkt_v1, mkPkt_v2] at hle1 hle2 ⊢
  have ht : totalOf le skb < 4294967296 :=
    Nat.lt_trans (totalOf_lt le skb) (by norm_num)
  exact ⟨sub32_sub32 _ _ _ ht hle1, sub32_sub32 _ _ _ ht hle2⟩

/-- Witness for C8 at a concrete accepted frame (total 1500, decoded
header lengths 16 and 0 on a little-endian host). -/
theorem c8_payload_witness :
    (mkPkt_v1 true sockA (testFrame true)).payload_b
        = (mkPkt_v1 true sockA (testFrame true)).total_b
          - (mkPkt_v1 true sockA (testFrame true)).ihl_b
          - (mkPkt_v1 true sockA (testFrame true)).thl_b
  ∧ (mkPkt_v2 true sockA (testFrame true)).payload_bytes
        = (mkPkt_v2 true sockA (testFrame true)).total_bytes
          - (mkPkt_v2 true sockA (testFrame true)).ihl_bytes
          - (mkPkt_v2 true sockA (testFrame true)).thl_bytes :=
  c8_payload_exact true sockA (testFrame true) _ _ (by decide) (by decide)
    (by decide) (by decide)

/-- Claim C9: whenever the frame reference is null, the frame's declared
protocol is not IPv4, or the IP header's protocol byte is not TCP, both
variants return without emitting a record. -/
theorem c9_filter_rejects (le : Bool) (sk : TcpSock) (skb? : Option SkBuff)
    (h : skb? = none
      ∨ ∃ skb, skb? = some skb ∧
          (skb.protocol ≠ htons le ETH_P_IP
           ∨ byteAt skb (skb.network_header + 9) ≠ IPPROTO_TCP)) :
    trace_tcp_rcv_v1 le sk skb? = none ∧ trace_tcp_rcv_v2 le sk skb? = none := by
  constructor
  · rcases h with rfl | ⟨skb, rfl, hp | hp⟩
    · rfl
    · simp only [trace_tcp_rcv_v1]
      split_ifs <;> simp_all
    · simp only [trace_tcp_rcv_v1]
      split_ifs <;> simp_all
  · rcases h with rfl | ⟨skb, rfl, hp | hp⟩
    · rfl
    · simp only [trace_tcp_rcv_v2]
      split_ifs <;> simp_all
    · simp only [trace_tcp_rcv_v2]
      split_ifs <;> simp_all

/-- Witness for C9 at the null frame reference. -/
theorem c9_filter_witness :
    trace_tcp_rcv_v1 true sockA none = none
  ∧ trace_tcp_rcv_v2 true sockA none = none :=
  c9_filter_rejects true sockA none (Or.inl rfl)

/-- Claim C10: for every accepted frame, the recorded smoothed RTT is the
connection state's `srtt_us` shifted right by 3 bits (truncating division
by 8), and the timestamp value and echo are copied unmodified. -/
theorem c10_conn_state_fields (le : Bool) (sk : TcpSock) (skb : SkBuff)
    (p1 : pkt_t) (p2 : pkt2_t)
    (h1 : trace_tcp_rcv_v1 le sk (some skb) = some p1)
    (h2 : trace_tcp_rcv_v2 le sk (some skb) = some p2) :
    (p1.srtt_us = sk.srtt_us / 8 ∧ p1.tsval = sk.rcv_tsval ∧ p1.tsecr = sk.rcv_tsecr)
  ∧ (p2.srtt_us = sk.srtt_us / 8 ∧ p2.tsval = sk.rcv_tsval ∧ p2.tsecr = sk.rcv_tsecr) := by
  have e1 := trace_v1_eq le sk skb p1 h1
  have e2 := trace_v2_eq le sk skb p2 h2
  subst e1
  subst e2
  simp only [mkPkt_v1, mkPkt_v2, Nat.shiftRight_eq_div_pow]
  norm_num

/-- Witness for C10 at a concrete accepted frame (`srtt_us` 800, so the
record carries 100). -/
theorem c10_conn_state_witness :
    ((mkPkt_v1 true sockA (testFrame true)).srtt_us = sockA.srtt_us / 8
     ∧ (mkPkt_v1 true sockA (testFrame true)).tsval = sockA.rcv_tsval
     ∧ (mkPkt_v1 true sockA (testFrame true)).tsecr = sockA.rcv_tsecr)
  ∧ ((mkPkt_v2 true sockA (testFrame true)).srtt_us = sockA.srtt_us / 8
     ∧ (mkPkt_v2 true sockA (testFrame true)).tsval = sockA.rcv_tsval
     ∧ (mkPkt_v2 true sockA (testFrame true)).tsecr = sockA.rcv_tsecr) :=
  c10_conn_state_fields true sockA (testFrame true) _ _ (by decide) (by decide)

end Unfair
